import Mathlib

/-!
Verification of the ComplianceHealth assessment pipeline.

Shallow embedding of the scoring engine, branching-rule engine, response
submission route, assessment creation route and remediation-task status
route, translated from the TypeScript sources:
  src/unnamed/part_012            (scoring.ts and branchingRules.ts)
  src/server/src/routes/assessments.ts
  src/unnamed/part_008            (remediation.ts)
Numbers that the source handles as JS floats are modelled as rationals;
JS Math.round on the nonnegative values occurring here is floor (x + 1/2).
-/

namespace ComplianceHealth

/-! ## Scoring engine (src/unnamed/part_012, calculateScores and helpers) -/

/-- One element of the controlScores array handed to calculateScores
(interface ControlScore in scoring.ts). -/
structure ControlScore where
  controlId : String
  domainNumber : Nat
  riskLevel : String
  answer : String
  pointsYes : ℚ
  pointsPartial : ℚ
  pointsEarned : ℚ
  weightMultiplier : ℚ
deriving DecidableEq

/-- One entry of the domainScores array (interface DomainScore in scoring.ts).
The source field partialCount is rendered here as partCount. -/
structure DomainScore where
  domainNumber : Nat
  domainName : String
  totalPoints : ℚ
  earnedPoints : ℚ
  percentage : ℚ
  controlCount : Nat
  gapCount : Nat
  partCount : Nat
deriving DecidableEq

/-- Result record of calculateScores (interface ScoreResult in scoring.ts). -/
structure ScoreResult where
  overallScore : ℚ
  totalControlsAssessed : Nat
  criticalGaps : Nat
  highGaps : Nat
  mediumGaps : Nat
  lowGaps : Nat
  domainScores : List DomainScore
deriving DecidableEq

/-- JS Math.round, which rounds half up: floor (x + 1/2). -/
def jsRound (x : ℚ) : ℤ := Int.floor (x + 1/2)

/-- DOMAIN_NAMES lookup from scoring.ts; unknown numbers fall back to
the string Domain n. -/
def domainNameOf (n : Nat) : String :=
  if n = 1 then "Governance & Accountability"
  else if n = 2 then "Lawful Basis & Consent Management"
  else if n = 3 then "Data Subject Rights Fulfillment"
  else if n = 4 then "Data Security & Cybersecurity (NCA ECC)"
  else if n = 5 then "Third-Party & Data Transfer Compliance"
  else if n = 6 then "Breach Management & Notification"
  else if n = 7 then "Records & Documentation"
  else if n = 8 then "Training & Awareness"
  else if n = 9 then "Sectoral & Special Processing"
  else if n = 10 then "MoH Health Sector Controls"
  else "Domain " ++ toString n

/-- Responses that survive the N/A filter at the top of calculateScores. -/
def assessedOf (l : List ControlScore) : List ControlScore :=
  l.filter (fun c => c.answer != "NA")

/-- maxPoints of one response: pointsYes times weightMultiplier. -/
def maxPoints (c : ControlScore) : ℚ := c.pointsYes * c.weightMultiplier

/-- earned points of one response: pointsEarned times weightMultiplier. -/
def earnedOf (c : ControlScore) : ℚ := c.pointsEarned * c.weightMultiplier

/-- totalPointsAvailable accumulator of calculateScores, written as a sum. -/
def totalAvail (l : List ControlScore) : ℚ := ((assessedOf l).map maxPoints).sum

/-- totalPointsEarned accumulator of calculateScores, written as a sum. -/
def totalEarn (l : List ControlScore) : ℚ := ((assessedOf l).map earnedOf).sum

/-- Distinct domain numbers of the assessed responses, in ascending order.
calculateScores groups assessed rows in a Map keyed by domainNumber and
finally sorts the produced array by domainNumber, so the reported domains
are exactly the distinct keys in ascending order. -/
def domainNums (l : List ControlScore) : List Nat :=
  List.insertionSort (· ≤ ·) ((assessedOf l).map (fun c => c.domainNumber)).dedup

/-- The DomainScore entry produced for one domain number: the per-domain
accumulators of the loop in calculateScores, written as filtered sums, and
the percentage guard totalPoints > 0 from line 105 of scoring.ts. -/
def domainEntry (l : List ControlScore) (n : Nat) : DomainScore :=
  let ds := (assessedOf l).filter (fun c => c.domainNumber == n)
  let tot := (ds.map maxPoints).sum
  let earn := (ds.map earnedOf).sum
  { domainNumber := n
    domainName := domainNameOf n
    totalPoints := tot
    earnedPoints := earn
    percentage := if 0 < tot then (jsRound (earn / tot * 10000) : ℚ) / 100 else 0
    controlCount := ds.length
    gapCount := (ds.filter (fun c => c.answer == "NO")).length
    partCount := (ds.filter (fun c => c.answer == "PARTIAL")).length }

/-- calculateScores from scoring.ts. The imperative accumulators are
rendered as sums and counts over the filtered list; the gap switch has no
default case, so risk levels outside the four bucket into no counter. -/
def calculateScores (l : List ControlScore) : ScoreResult :=
  let assessed := assessedOf l
  let tA := totalAvail l
  let tE := totalEarn l
  { overallScore := if 0 < tA then (jsRound (tE / tA * 10000) : ℚ) / 100 else 0
    totalControlsAssessed := assessed.length
    criticalGaps := (assessed.filter (fun c => c.answer == "NO" && c.riskLevel == "CRITICAL")).length
    highGaps := (assessed.filter (fun c => c.answer == "NO" && c.riskLevel == "HIGH")).length
    mediumGaps := (assessed.filter (fun c => c.answer == "NO" && c.riskLevel == "MEDIUM")).length
    lowGaps := (assessed.filter (fun c => c.answer == "NO" && c.riskLevel == "LOW")).length
    domainScores := (domainNums l).map (domainEntry l) }

/-- getPointsForAnswer from scoring.ts: YES earns pointsYes, PARTIAL earns
pointsPartial, NO and NA and anything else earn 0. -/
def getPointsForAnswer (answer : String) (pointsYes pointsPartial : ℚ) : ℚ :=
  if answer == "YES" then pointsYes
  else if answer == "PARTIAL" then pointsPartial
  else 0

/-- getDefaultDeadlineDays from scoring.ts. -/
def getDefaultDeadlineDays (riskLevel : String) : Nat :=
  if riskLevel == "CRITICAL" then 30
  else if riskLevel == "HIGH" then 60
  else if riskLevel == "MEDIUM" then 90
  else if riskLevel == "LOW" then 180
  else 90

/-- Rounding to two decimal places with round-half-up at the hundredths
place, exactly as the specification words it: round (x * 100) / 100. -/
def round2 (x : ℚ) : ℚ := (jsRound (x * 100) : ℚ) / 100

/-- Responses whose derived quantities are coherent: nonnegative weight,
nonnegative earned points, and earned points at most pointsYes (this is
what getPointsForAnswer produces whenever 0 ≤ pointsPartial ≤ pointsYes
and 0 ≤ pointsYes). -/
def WellFormedScores (l : List ControlScore) : Prop :=
  ∀ c ∈ l, 0 ≤ c.weightMultiplier ∧ 0 ≤ c.pointsEarned ∧ c.pointsEarned ≤ c.pointsYes

instance : DecidablePred WellFormedScores := fun l =>
  inferInstanceAs (Decidable (∀ c ∈ l, _ ∧ _ ∧ _))

/-! ## Lemmas about the scoring engine -/

theorem jsRound_nonneg {x : ℚ} (hx : 0 ≤ x) : 0 ≤ jsRound x :=
  Int.le_floor.mpr (by push_cast; linarith)

theorem jsRound_le_of_le {x : ℚ} {n : ℤ} (h : x ≤ (n : ℚ)) : jsRound x ≤ n := by
  have h2 : Int.floor (x + 1/2) < n + 1 := Int.floor_lt.mpr (by push_cast; linarith)
  unfold jsRound
  omega

theorem mem_of_mem_assessedOf {l : List ControlScore} {c : ControlScore}
    (hc : c ∈ assessedOf l) : c ∈ l := (List.mem_filter.mp hc).1

theorem totalAvail_nonneg (l : List ControlScore) (h : WellFormedScores l) :
    0 ≤ totalAvail l := by
  apply List.sum_nonneg
  intro x hx
  obtain ⟨c, hc, rfl⟩ := List.mem_map.mp hx
  obtain ⟨hw, he, hey⟩ := h c (mem_of_mem_assessedOf hc)
  exact mul_nonneg (le_trans he hey) hw

theorem totalEarn_nonneg (l : List ControlScore) (h : WellFormedScores l) :
    0 ≤ totalEarn l := by
  apply List.sum_nonneg
  intro x hx
  obtain ⟨c, hc, rfl⟩ := List.mem_map.mp hx
  obtain ⟨hw, he, _⟩ := h c (mem_of_mem_assessedOf hc)
  exact mul_nonneg he hw

theorem totalEarn_le_totalAvail (l : List ControlScore) (h : WellFormedScores l) :
    totalEarn l ≤ totalAvail l := by
  apply List.sum_le_sum
  intro c hc
  obtain ⟨hw, _, hey⟩ := h c (mem_of_mem_assessedOf hc)
  exact mul_le_mul_of_nonneg_right hey hw

/-- C1: calculateScores computes overallScore as round2 of
totalEarned / totalAvailable x 100 over the non-NA responses (each response
contributing pointsYes x weightMultiplier available and
pointsEarned x weightMultiplier earned), returns 0 when totalAvailable is 0,
always stays inside [0,100] for well-formed responses, rounds half-up at
the hundredths place, and reports totalControlsAssessed as the number of
non-NA responses; an all-NA list scores 0 with totalControlsAssessed 0. -/
theorem scoring_overall_C1 (l : List ControlScore) (h : WellFormedScores l) :
    (calculateScores l).overallScore
        = (if 0 < totalAvail l then round2 (totalEarn l / totalAvail l * 100) else 0)
      ∧ (totalAvail l = 0 → (calculateScores l).overallScore = 0)
      ∧ 0 ≤ (calculateScores l).overallScore
      ∧ (calculateScores l).overallScore ≤ 100
      ∧ (calculateScores l).totalControlsAssessed = (assessedOf l).length
      ∧ ((∀ c ∈ l, c.answer = "NA") →
          (calculateScores l).overallScore = 0
            ∧ (calculateScores l).totalControlsAssessed = 0) := by
  have hA0 : 0 ≤ totalAvail l := totalAvail_nonneg l h
  have hE0 : 0 ≤ totalEarn l := totalEarn_nonneg l h
  have hEA : totalEarn l ≤ totalAvail l := totalEarn_le_totalAvail l h
  have hover : (calculateScores l).overallScore
      = if 0 < totalAvail l
        then ((jsRound (totalEarn l / totalAvail l * 10000) : ℚ) / 100) else 0 := rfl
  refine ⟨?_, ?_, ?_, ?_, rfl, ?_⟩
  · rw [hover]
    by_cases hp : 0 < totalAvail l
    · rw [if_pos hp, if_pos hp, round2]
      have harg : totalEarn l / totalAvail l * 100 * 100
          = totalEarn l / totalAvail l * 10000 := by ring
      rw [harg]
    · rw [if_neg hp, if_neg hp]
  · intro h0
    rw [hover, if_neg (by rw [h0]; exact lt_irrefl 0)]
  · rw [hover]
    by_cases hp : 0 < totalAvail l
    · rw [if_pos hp]
      have hr0 : 0 ≤ totalEarn l / totalAvail l := div_nonneg hE0 hA0
      have hk : 0 ≤ jsRound (totalEarn l / totalAvail l * 10000) :=
        jsRound_nonneg (by nlinarith)
      have : (0:ℚ) ≤ (jsRound (totalEarn l / totalAvail l * 10000) : ℚ) := by
        exact_mod_cast hk
      linarith
    · rw [if_neg hp]
  · rw [hover]
    by_cases hp : 0 < totalAvail l
    · rw [if_pos hp]
      have hr1 : totalEarn l / totalAvail l ≤ 1 := (div_le_one hp).mpr hEA
      have hr0 : 0 ≤ totalEarn l / totalAvail l := div_nonneg hE0 hA0
      have hk : jsRound (totalEarn l / totalAvail l * 10000) ≤ 10000 :=
        jsRound_le_of_le (by push_cast; nlinarith)
      have hkq : (jsRound (totalEarn l / totalAvail l * 10000) : ℚ) ≤ 10000 := by
        exact_mod_cast hk
      linarith
    · rw [if_neg hp]; norm_num
  · intro hna
    have hempty : assessedOf l = [] := by
      rw [assessedOf, List.filter_eq_nil_iff]
      intro a ha
      simp [hna a ha]
    have hA : totalAvail l = 0 := by rw [totalAvail, hempty]; rfl
    refine ⟨?_, ?_⟩
    · rw [hover, if_neg (by rw [hA]; exact lt_irrefl 0)]
    · show (assessedOf l).length = 0
      rw [hempty]; rfl

/-- Concrete inputs for the C1 witness: one NO on a critical control, one
YES on a high control, one NA. -/
def lC1 : List ControlScore :=
  [⟨"PDPL-G.1", 1, "CRITICAL", "NO", 10, 5, 0, 1⟩,
   ⟨"PDPL-G.2", 1, "HIGH", "YES", 10, 5, 10, 1⟩,
   ⟨"PDPL-T.5", 5, "LOW", "NA", 10, 5, 0, 1⟩]

/-- Witness for C1 at a concrete response list. -/
theorem scoring_overall_C1_witness :
    WellFormedScores lC1
      ∧ ((calculateScores lC1).overallScore
            = (if 0 < totalAvail lC1 then round2 (totalEarn lC1 / totalAvail lC1 * 100) else 0)
          ∧ (totalAvail lC1 = 0 → (calculateScores lC1).overallScore = 0)
          ∧ 0 ≤ (calculateScores lC1).overallScore
          ∧ (calculateScores lC1).overallScore ≤ 100
          ∧ (calculateScores lC1).totalControlsAssessed = (assessedOf lC1).length
          ∧ ((∀ c ∈ lC1, c.answer = "NA") →
              (calculateScores lC1).overallScore = 0
                ∧ (calculateScores lC1).totalControlsAssessed = 0)) :=
  ⟨by decide, scoring_overall_C1 lC1 (by decide)⟩

theorem filter_assessedOf (l : List ControlScore) (p : ControlScore → Bool)
    (hp : ∀ x, p x = true → x.answer ≠ "NA") :
    (assessedOf l).filter p = l.filter p := by
  rw [assessedOf, List.filter_filter]
  apply List.filter_congr
  intro x _
  cases hx : p x
  · simp
  · simp [hp x hx]

/-- C6: the four global gap counters count exactly the NO answers bucketed
by riskLevel; appending a PARTIAL response changes none of them (PARTIAL is
counted only in the per-domain partialCount, modelled here as partCount). -/
theorem scoring_gaps_C6 (l : List ControlScore) (c : ControlScore) (d : DomainScore)
    (hc : c.answer = "PARTIAL") (hd : d ∈ (calculateScores l).domainScores) :
    ((calculateScores l).criticalGaps
        = (l.filter (fun x => x.answer == "NO" && x.riskLevel == "CRITICAL")).length)
    ∧ ((calculateScores l).highGaps
        = (l.filter (fun x => x.answer == "NO" && x.riskLevel == "HIGH")).length)
    ∧ ((calculateScores l).mediumGaps
        = (l.filter (fun x => x.answer == "NO" && x.riskLevel == "MEDIUM")).length)
    ∧ ((calculateScores l).lowGaps
        = (l.filter (fun x => x.answer == "NO" && x.riskLevel == "LOW")).length)
    ∧ ((calculateScores (l ++ [c])).criticalGaps = (calculateScores l).criticalGaps)
    ∧ ((calculateScores (l ++ [c])).highGaps = (calculateScores l).highGaps)
    ∧ ((calculateScores (l ++ [c])).mediumGaps = (calculateScores l).mediumGaps)
    ∧ ((calculateScores (l ++ [c])).lowGaps = (calculateScores l).lowGaps)
    ∧ (d.partCount
        = (l.filter (fun x => x.answer == "PARTIAL" && x.domainNumber == d.domainNumber)).length) := by
  have hbase : ∀ (L : List ControlScore) (r : String),
      (assessedOf L).filter (fun x => x.answer == "NO" && x.riskLevel == r)
        = L.filter (fun x => x.answer == "NO" && x.riskLevel == r) := by
    intro L r
    apply filter_assessedOf
    intro x hx
    have : x.answer = "NO" := by
      have := (Bool.and_eq_true _ _).mp hx
      exact eq_of_beq this.1
    rw [this]
    decide
  have happ : ∀ r : String,
      ((assessedOf (l ++ [c])).filter (fun x => x.answer == "NO" && x.riskLevel == r)).length
        = ((assessedOf l).filter (fun x => x.answer == "NO" && x.riskLevel == r)).length := by
    intro r
    rw [hbase (l ++ [c]) r, hbase l r, List.filter_append]
    have : List.filter (fun x => x.answer == "NO" && x.riskLevel == r) [c] = [] := by
      simp [hc]
    rw [this, List.append_nil]
  refine ⟨?_, ?_, ?_, ?_, happ "CRITICAL", happ "HIGH", happ "MEDIUM", happ "LOW", ?_⟩
  · show ((assessedOf l).filter _).length = _
    rw [hbase l "CRITICAL"]
  · show ((assessedOf l).filter _).length = _
    rw [hbase l "HIGH"]
  · show ((assessedOf l).filter _).length = _
    rw [hbase l "MEDIUM"]
  · show ((assessedOf l).filter _).length = _
    rw [hbase l "LOW"]
  · obtain ⟨n, hn, hdn⟩ := List.mem_map.mp hd
    subst hdn
    show ((((assessedOf l).filter (fun x => x.domainNumber == n)).filter
        (fun x => x.answer == "PARTIAL")).length) = _
    rw [List.filter_filter, assessedOf, List.filter_filter]
    congr 1
    apply List.filter_congr
    intro x _
    cases hx : (x.answer == "PARTIAL")
    · simp [hx]
    · have hxa : x.answer = "PARTIAL" := eq_of_beq hx
      simp [hx, hxa, show (domainEntry l n).domainNumber = n from rfl]

/-- Concrete inputs for the C6 witness. -/
def lC6 : List ControlScore :=
  [⟨"PDPL-G.1", 2, "HIGH", "PARTIAL", 10, 5, 5, 1⟩,
   ⟨"PDPL-G.2", 2, "CRITICAL", "NO", 10, 5, 0, 1⟩]

def cC6 : ControlScore := ⟨"PDPL-G.3", 2, "LOW", "PARTIAL", 10, 5, 5, 1⟩

theorem lC6_domainScores : (calculateScores lC6).domainScores = [domainEntry lC6 2] := by
  show (domainNums lC6).map (domainEntry lC6) = _
  rw [show domainNums lC6 = [2] from by decide]
  rfl

/-- Witness for C6 at a concrete response list, PARTIAL response and
reported domain entry. -/
theorem scoring_gaps_C6_witness :
    cC6.answer = "PARTIAL"
      ∧ domainEntry lC6 2 ∈ (calculateScores lC6).domainScores
      ∧ ((calculateScores lC6).criticalGaps
            = (lC6.filter (fun x => x.answer == "NO" && x.riskLevel == "CRITICAL")).length
          ∧ (calculateScores lC6).highGaps
            = (lC6.filter (fun x => x.answer == "NO" && x.riskLevel == "HIGH")).length
          ∧ (calculateScores lC6).mediumGaps
            = (lC6.filter (fun x => x.answer == "NO" && x.riskLevel == "MEDIUM")).length
          ∧ (calculateScores lC6).lowGaps
            = (lC6.filter (fun x => x.answer == "NO" && x.riskLevel == "LOW")).length
          ∧ (calculateScores (lC6 ++ [cC6])).criticalGaps = (calculateScores lC6).criticalGaps
          ∧ (calculateScores (lC6 ++ [cC6])).highGaps = (calculateScores lC6).highGaps
          ∧ (calculateScores (lC6 ++ [cC6])).mediumGaps = (calculateScores lC6).mediumGaps
          ∧ (calculateScores (lC6 ++ [cC6])).lowGaps = (calculateScores lC6).lowGaps
          ∧ (domainEntry lC6 2).partCount
            = (lC6.filter (fun x =>
                x.answer == "PARTIAL" && x.domainNumber == (domainEntry lC6 2).domainNumber)).length) :=
  ⟨by decide, by rw [lC6_domainScores]; exact List.mem_singleton.mpr rfl,
   scoring_gaps_C6 lC6 cC6 (domainEntry lC6 2) (by decide)
     (by rw [lC6_domainScores]; exact List.mem_singleton.mpr rfl)⟩

theorem domainEntry_percentage (l : List ControlScore) (n : Nat) :
    (domainEntry l n).percentage
      = if 0 < (domainEntry l n).totalPoints
        then (jsRound ((domainEntry l n).earnedPoints / (domainEntry l n).totalPoints * 10000) : ℚ) / 100
        else 0 := rfl

/-- C9 (amended): every domain reported in domainScores with totalPoints 0
has percentage 0, and every reported domain has at least one non-NA
response; consequently a domain all of whose controls were answered NA is
not reported in domainScores at all. -/
theorem scoring_domains_C9 (l : List ControlScore) (d : DomainScore)
    (hd : d ∈ (calculateScores l).domainScores) (h0 : d.totalPoints = 0) :
    d.percentage = 0
      ∧ d.domainNumber ∈ (assessedOf l).map (fun c => c.domainNumber) := by
  obtain ⟨n, hn, hdn⟩ := List.mem_map.mp hd
  subst hdn
  constructor
  · rw [domainEntry_percentage, if_neg (by rw [h0]; exact lt_irrefl 0)]
  · show n ∈ _
    have hperm := List.perm_insertionSort (α := Nat) (· ≤ ·)
      ((assessedOf l).map (fun c => c.domainNumber)).dedup
    exact List.mem_dedup.mp (hperm.mem_iff.mp hn)

/-- Concrete input for the C9 counterexample: a single response answered
NA, in domain 3. -/
def lC9na : List ControlScore := [⟨"PDPL-R.1", 3, "LOW", "NA", 10, 5, 0, 1⟩]

/-- Counterexample to C9 as stated: for a list whose only (domain-3)
control is answered NA, calculateScores reports no entry at all for that
domain — domainScores is empty, so the domain is not reported with
percentage 0. -/
theorem scoring_domains_C9_counterexample :
    (∀ c ∈ lC9na, c.answer = "NA" ∧ c.domainNumber = 3)
      ∧ (calculateScores lC9na).domainScores = []
      ∧ ¬ (∃ d ∈ (calculateScores lC9na).domainScores,
            d.domainNumber = 3 ∧ d.percentage = 0) := by
  refine ⟨by decide, ?_, ?_⟩
  · show (domainNums lC9na).map (domainEntry lC9na) = _
    rw [show domainNums lC9na = [] from by decide]
    rfl
  · rw [show (calculateScores lC9na).domainScores
        = (domainNums lC9na).map (domainEntry lC9na) from rfl,
      show domainNums lC9na = [] from by decide]
    simp

/-- Concrete inputs for the C9 witness: a reported domain whose only
assessed control carries zero available points. -/
def lC9 : List ControlScore := [⟨"PDPL-R.2", 2, "HIGH", "NO", 0, 0, 0, 1⟩]

theorem lC9_domainScores : (calculateScores lC9).domainScores = [domainEntry lC9 2] := by
  show (domainNums lC9).map (domainEntry lC9) = _
  rw [show domainNums lC9 = [2] from by decide]
  rfl

/-- Witness for the amended C9 at a concrete zero-point reported domain. -/
theorem scoring_domains_C9_witness :
    domainEntry lC9 2 ∈ (calculateScores lC9).domainScores
      ∧ (domainEntry lC9 2).totalPoints = 0
      ∧ ((domainEntry lC9 2).percentage = 0
          ∧ (domainEntry lC9 2).domainNumber ∈ (assessedOf lC9).map (fun c => c.domainNumber)) := by
  have hmem : domainEntry lC9 2 ∈ (calculateScores lC9).domainScores := by
    rw [lC9_domainScores]; exact List.mem_singleton.mpr rfl
  have h0 : (domainEntry lC9 2).totalPoints = 0 := by
    show ((((assessedOf lC9).filter (fun c => c.domainNumber == 2)).map maxPoints)).sum = 0
    simp [assessedOf, lC9, maxPoints]
  exact ⟨hmem, h0, scoring_domains_C9 lC9 (domainEntry lC9 2) hmem h0⟩

/-! ## Branching-rule engine (src/unnamed/part_012, branchingRules.ts) -/

/-- OrgProfile interface from branchingRules.ts. -/
structure OrgProfile where
  orgType : String
  processesMinors : Bool
  crossBorderTransfers : Bool
  usesCloud : String
  conductsResearch : Bool
  usesAiOrAutomatedDecisions : Bool
  continuousMonitoring : Bool
deriving DecidableEq

/-- BranchingResult interface from branchingRules.ts; the two JS Sets are
rendered as their Array.from images, duplicate-free lists in insertion
order. -/
structure BranchingResult where
  activatedControls : List String
  naControls : List String
deriving DecidableEq

/-- HEALTH_ORG_TYPES constant from branchingRules.ts. -/
def HEALTH_ORG_TYPES : List String :=
  ["government_hospital", "private_hospital", "clinic_small",
   "clinic_large", "insurer", "pharma", "health_tech"]

/-- Adding a batch of control ids to a JS Set rendered as a list:
each id is appended unless already present, preserving insertion order. -/
def addAll (s : List String) (cs : List String) : List String :=
  cs.foldl (fun acc c => if c ∈ acc then acc else acc ++ [c]) s

/-- Control ids activated by rule 1 (processesMinors). -/
def minorsControls : List String := ["PDPL-G.10", "PDPL-R.10"]

/-- Control ids activated by rule 2 (crossBorderTransfers true). -/
def transferActivatedControls : List String :=
  ["PDPL-T.5", "PDPL-T.6", "PDPL-T.7", "PDPL-T.8", "PDPL-T.9", "HS-PDPL-013", "NCA-D4.R2"]

/-- Control ids marked N/A by rule 3 (crossBorderTransfers false). -/
def transferNAControls : List String :=
  ["PDPL-T.5", "PDPL-T.6", "PDPL-T.7", "PDPL-T.8", "PDPL-T.9", "HS-PDPL-013"]

/-- Control ids activated by rule 4 (health org types). -/
def healthMandatoryActivated : List String :=
  ["PDPL-C.1", "HS-PDPL-001", "HS-PDPL-002", "HS-PDPL-003", "PDPL-G.1"]

/-- Control ids activated by rule 5 (cloud usage yes or partial). -/
def cloudControls : List String := ["PDPL-T.2", "NCA-D4.R2"]

/-- Control ids activated by rule 6 (AI or automated decisions). -/
def aiControls : List String := ["PDPL-G.3", "HS-PDPL-020"]

/-- evaluateBranchingRules from branchingRules.ts: rules 1 to 6 evaluated
in order (rule 7 is a no-op comment in the source, evaluated at
response-submission time instead). -/
def evaluateBranchingRules (p : OrgProfile) : BranchingResult :=
  let a1 := if p.processesMinors then addAll [] minorsControls else []
  let a2 := if p.crossBorderTransfers then addAll a1 transferActivatedControls else a1
  let a3 := if p.orgType ∈ HEALTH_ORG_TYPES then addAll a2 healthMandatoryActivated else a2
  let a4 := if p.usesCloud == "yes" || p.usesCloud == "partial" then addAll a3 cloudControls else a3
  let a5 := if p.usesAiOrAutomatedDecisions then addAll a4 aiControls else a4
  let na := if !p.crossBorderTransfers then addAll [] transferNAControls else []
  ⟨a5, na⟩

/-- A JSON value that can sit on the right of a conditionalOn entry: the
profile fields are strings and booleans. -/
inductive PVal where
  | str (v : String)
  | bool (v : Bool)
deriving DecidableEq

/-- The dynamic field lookup (profile as any)[key] of isControlApplicable:
a known profile field name yields its value, anything else is undefined
(none), which never equals a conditionalOn value. -/
def profileGet (p : OrgProfile) (k : String) : Option PVal :=
  if k == "orgType" then some (.str p.orgType)
  else if k == "processesMinors" then some (.bool p.processesMinors)
  else if k == "crossBorderTransfers" then some (.bool p.crossBorderTransfers)
  else if k == "usesCloud" then some (.str p.usesCloud)
  else if k == "conductsResearch" then some (.bool p.conductsResearch)
  else if k == "usesAiOrAutomatedDecisions" then some (.bool p.usesAiOrAutomatedDecisions)
  else if k == "continuousMonitoring" then some (.bool p.continuousMonitoring)
  else none

/-- isControlApplicable from branchingRules.ts: false when the control is
in the N/A list, otherwise every conditionalOn entry (when the predicate is
present) must match the profile exactly; activatedControls is never read. -/
def isControlApplicable (controlId : String) (conditionalOn : Option (List (String × PVal)))
    (p : OrgProfile) (br : BranchingResult) : Bool :=
  if br.naControls.contains controlId then false
  else
    match conditionalOn with
    | none => true
    | some entries => entries.all (fun kv => profileGet p kv.1 == some kv.2)

/-- isHealthOrg from branchingRules.ts. -/
def isHealthOrg (orgType : String) : Bool := HEALTH_ORG_TYPES.contains orgType

/-- The conditionalOn predicate as a proposition: every declared entry
matches the profile field exactly (vacuously true when absent). -/
def CondMatches (cond : Option (List (String × PVal))) (p : OrgProfile) : Prop :=
  ∀ kv ∈ cond.getD [], profileGet p kv.1 = some kv.2

instance (cond : Option (List (String × PVal))) (p : OrgProfile) :
    Decidable (CondMatches cond p) :=
  inferInstanceAs (Decidable (∀ kv ∈ cond.getD [], _ = _))

/-- C2: a control in naControls is never applicable regardless of its
conditionalOn predicate; otherwise applicability holds iff every
conditionalOn key matches the profile exactly; and the activatedControls
component is never consulted. -/
theorem branching_isApplicable_C2 (controlId : String)
    (cond : Option (List (String × PVal))) (p : OrgProfile) (br : BranchingResult) :
    (controlId ∈ br.naControls → isControlApplicable controlId cond p br = false)
      ∧ (controlId ∉ br.naControls →
          (isControlApplicable controlId cond p br = true ↔ CondMatches cond p))
      ∧ (∀ act : List String,
          isControlApplicable controlId cond p ⟨act, br.naControls⟩
            = isControlApplicable controlId cond p br) := by
  refine ⟨?_, ?_, fun act => rfl⟩
  · intro hmem
    unfold isControlApplicable
    rw [if_pos (by simpa using hmem)]
  · intro hmem
    unfold isControlApplicable
    rw [if_neg (by simpa using hmem)]
    cases cond with
    | none => simp [CondMatches]
    | some entries => simp [CondMatches, List.all_eq_true]

/-- Concrete profile for the C2 witness: no cross-border transfers, so the
six transfer controls are N/A. -/
def pC2 : OrgProfile := ⟨"private_hospital", true, false, "yes", false, true, false⟩

/-- Witness for C2: PDPL-T.5 is in naControls for pC2 and is reported not
applicable even though its conditionalOn predicate matches the profile. -/
theorem branching_isApplicable_C2_witness :
    "PDPL-T.5" ∈ (evaluateBranchingRules pC2).naControls
      ∧ CondMatches (some [("processesMinors", PVal.bool true)]) pC2
      ∧ isControlApplicable "PDPL-T.5" (some [("processesMinors", PVal.bool true)])
          pC2 (evaluateBranchingRules pC2) = false :=
  ⟨by decide, by decide,
   (branching_isApplicable_C2 "PDPL-T.5" (some [("processesMinors", PVal.bool true)])
      pC2 (evaluateBranchingRules pC2)).1 (by decide)⟩

theorem mem_addAll {a : String} {cs s : List String} :
    a ∈ addAll s cs ↔ a ∈ s ∨ a ∈ cs := by
  induction cs generalizing s with
  | nil => simp [addAll]
  | cons c cs ih =>
    show a ∈ addAll (if c ∈ s then s else s ++ [c]) cs ↔ _
    rw [ih]
    by_cases hc : c ∈ s
    · rw [if_pos hc]
      constructor
      · rintro (h | h)
        · exact Or.inl h
        · exact Or.inr (List.mem_cons_of_mem _ h)
      · rintro (h | h)
        · exact Or.inl h
        · rcases List.mem_cons.mp h with rfl | h
          · exact Or.inl hc
          · exact Or.inr h
    · rw [if_neg hc]
      simp [List.mem_append, List.mem_cons, or_assoc]

theorem mem_activated_iff (p : OrgProfile) (a : String) :
    a ∈ (evaluateBranchingRules p).activatedControls ↔
      (p.processesMinors = true ∧ a ∈ minorsControls)
      ∨ (p.crossBorderTransfers = true ∧ a ∈ transferActivatedControls)
      ∨ (p.orgType ∈ HEALTH_ORG_TYPES ∧ a ∈ healthMandatoryActivated)
      ∨ ((p.usesCloud = "yes" ∨ p.usesCloud = "partial") ∧ a ∈ cloudControls)
      ∨ (p.usesAiOrAutomatedDecisions = true ∧ a ∈ aiControls) := by
  show a ∈ (if p.usesAiOrAutomatedDecisions then addAll _ aiControls else _) ↔ _
  by_cases h1 : p.processesMinors <;>
    by_cases h2 : p.crossBorderTransfers <;>
    by_cases h3 : p.orgType ∈ HEALTH_ORG_TYPES <;>
    by_cases h4 : (p.usesCloud == "yes" || p.usesCloud == "partial") = true <;>
    by_cases h5 : p.usesAiOrAutomatedDecisions <;>
    simp only [h1, h2, h3, h4, h5, if_pos, if_neg, if_true, if_false, mem_addAll,
      List.not_mem_nil, false_or, or_false, Bool.or_eq_true, beq_iff_eq,
      Bool.not_eq_true] <;>
    simp_all <;> tauto

theorem naControls_eq (p : OrgProfile) :
    (evaluateBranchingRules p).naControls
      = if p.crossBorderTransfers then [] else transferNAControls := by
  show (if !p.crossBorderTransfers then addAll [] transferNAControls else []) = _
  by_cases h2 : p.crossBorderTransfers <;>
    simp [h2, show addAll [] transferNAControls = transferNAControls from by decide]

/-- C10: for every profile the activated and N/A sets are disjoint;
naControls is exactly the six transfer controls when crossBorderTransfers
is false and empty otherwise; and a transfer control can only be activated
when crossBorderTransfers is true, so the N/A-wins tie-break can never
fire. -/
theorem branching_disjoint_C10 (p : OrgProfile) :
    (∀ c ∈ (evaluateBranchingRules p).naControls,
        c ∉ (evaluateBranchingRules p).activatedControls)
      ∧ (evaluateBranchingRules p).naControls
          = (if p.crossBorderTransfers then [] else transferNAControls)
      ∧ (∀ c ∈ transferNAControls,
          c ∈ (evaluateBranchingRules p).activatedControls →
            p.crossBorderTransfers = true) := by
  have hdisj : ∀ x ∈ transferNAControls,
      ¬ (x ∈ minorsControls ∨ x ∈ HEALTH_ORG_TYPES ∨ x ∈ healthMandatoryActivated
          ∨ x ∈ cloudControls ∨ x ∈ aiControls) := by decide
  have key : ∀ c ∈ transferNAControls,
      c ∈ (evaluateBranchingRules p).activatedControls → p.crossBorderTransfers = true := by
    intro c hc hact
    rw [mem_activated_iff] at hact
    rcases hact with ⟨_, hm⟩ | ⟨hcbt, _⟩ | ⟨_, hm⟩ | ⟨_, hm⟩ | ⟨_, hm⟩
    · exact absurd (Or.inl hm) (hdisj c hc)
    · exact hcbt
    · exact absurd (Or.inr (Or.inr (Or.inl hm))) (hdisj c hc)
    · exact absurd (Or.inr (Or.inr (Or.inr (Or.inl hm)))) (hdisj c hc)
    · exact absurd (Or.inr (Or.inr (Or.inr (Or.inr hm)))) (hdisj c hc)
  refine ⟨?_, naControls_eq p, key⟩
  intro c hc hact
  rw [naControls_eq p] at hc
  by_cases h2 : p.crossBorderTransfers
  · rw [if_pos h2] at hc
    exact absurd hc (List.not_mem_nil c)
  · rw [if_neg h2] at hc
    exact h2 (key c hc hact)

/-- Concrete profile for the C10 witness: cross-border transfers off. -/
def pC10 : OrgProfile := ⟨"clinic_large", true, false, "partial", true, true, true⟩

/-- Witness for C10: for pC10 the control PDPL-T.5 is in naControls and not
in activatedControls. -/
theorem branching_disjoint_C10_witness :
    "PDPL-T.5" ∈ (evaluateBranchingRules pC10).naControls
      ∧ "PDPL-T.5" ∉ (evaluateBranchingRules pC10).activatedControls :=
  ⟨by decide, (branching_disjoint_C10 pC10).1 "PDPL-T.5" (by decide)⟩

/-! ## Remediation task status route (src/unnamed/part_008,
PUT /remediation/tasks/:id/status) -/

/-- Stable error codes surfaced by the modelled routes, as the string
literals in the sources. -/
inductive ErrCode where
  | VALIDATION_ERROR
  | NOT_FOUND
  | ASSESSMENT_LOCKED
  | MANDATORY_CONTROL
  | JUSTIFICATION_REQUIRED
  | INVALID_TRANSITION
  | NOTES_REQUIRED
  | FORBIDDEN
  | EVIDENCE_REQUIRED
  | REJECTION_NOTE_REQUIRED
  | INVALID_STATUS
deriving DecidableEq

/-- HTTP status each error code is sent with in the modelled routes. -/
def httpStatusOf : ErrCode → Nat
  | .NOT_FOUND => 404
  | .FORBIDDEN => 403
  | .INVALID_TRANSITION => 422
  | _ => 400

/-- JS truthiness of an optional string request field: undefined and the
empty string are falsy. -/
def truthy : Option String → Bool
  | none => false
  | some v => !(v == "")

/-- The fields of a remediation task row that the status route reads and
writes (closedAt modelled in days, matching the deadline model below). -/
structure TaskRow where
  status : String
  notes : Option String
  evidenceRequiredForClosure : Bool
  closedAt : Option Int
deriving DecidableEq

/-- Request body of PUT /remediation/tasks/:id/status. -/
structure StatusReq where
  status : String
  notes : Option String
  rejectionNote : Option String
deriving DecidableEq

/-- validTransitions table from the status route; a current status outside
the table yields no allowed targets (undefined?.includes(...) is falsy in
the source). -/
def validTransitions (s : String) : List String :=
  if s == "OPEN" then ["IN_PROGRESS", "DEFERRED"]
  else if s == "IN_PROGRESS" then ["UNDER_REVIEW", "DEFERRED"]
  else if s == "UNDER_REVIEW" then ["CLOSED", "IN_PROGRESS", "DEFERRED"]
  else if s == "CLOSED" then []
  else if s == "DEFERRED" then ["OPEN", "IN_PROGRESS"]
  else []

/-- changeTaskStatus: the guard sequence of PUT /remediation/tasks/:id/status
after the task is found, with the evidence lookup for closure passed in as
hasEvidence and the request time as now. -/
def changeTaskStatus (task : TaskRow) (req : StatusReq) (role : String)
    (hasEvidence : Bool) (now : Int) : Except ErrCode TaskRow :=
  if ¬ req.status ∈ validTransitions task.status then .error .INVALID_TRANSITION
  else if task.status == "IN_PROGRESS" && req.status == "UNDER_REVIEW"
      && !truthy req.notes && !truthy task.notes then .error .NOTES_REQUIRED
  else if req.status == "CLOSED"
      && !(role ∈ ["dpo", "org_admin", "compliance_officer"] : Bool) then .error .FORBIDDEN
  else if req.status == "CLOSED" && task.evidenceRequiredForClosure && !hasEvidence then
    .error .EVIDENCE_REQUIRED
  else if req.status == "DEFERRED" && !(role == "dpo" || role == "org_admin") then
    .error .FORBIDDEN
  else if req.status == "DEFERRED" && !truthy req.notes then .error .JUSTIFICATION_REQUIRED
  else if task.status == "UNDER_REVIEW" && req.status == "IN_PROGRESS"
      && !truthy req.rejectionNote then .error .REJECTION_NOTE_REQUIRED
  else .ok { task with
              status := req.status
              notes := if truthy req.notes then req.notes else task.notes
              closedAt := if req.status == "CLOSED" then some now else task.closedAt }

/-- C5: a status change succeeds only when the (current, requested) pair is
in the fixed transition table; every pair outside the table fails with
INVALID_TRANSITION and HTTP 422; from CLOSED nothing ever succeeds, and
OPEN to CLOSED fails; the table is the fixed one of the source. -/
theorem task_transitions_C5 (task : TaskRow) (req : StatusReq) (role : String)
    (hasEvidence : Bool) (now : Int) :
    ((∃ t, changeTaskStatus task req role hasEvidence now = .ok t) →
        req.status ∈ validTransitions task.status)
      ∧ (req.status ∉ validTransitions task.status →
          changeTaskStatus task req role hasEvidence now = .error .INVALID_TRANSITION
            ∧ httpStatusOf .INVALID_TRANSITION = 422)
      ∧ (task.status = "CLOSED" →
          changeTaskStatus task req role hasEvidence now = .error .INVALID_TRANSITION)
      ∧ (task.status = "OPEN" → req.status = "CLOSED" →
          changeTaskStatus task req role hasEvidence now = .error .INVALID_TRANSITION)
      ∧ validTransitions "OPEN" = ["IN_PROGRESS", "DEFERRED"]
      ∧ validTransitions "IN_PROGRESS" = ["UNDER_REVIEW", "DEFERRED"]
      ∧ validTransitions "UNDER_REVIEW" = ["CLOSED", "IN_PROGRESS", "DEFERRED"]
      ∧ validTransitions "CLOSED" = []
      ∧ validTransitions "DEFERRED" = ["OPEN", "IN_PROGRESS"] := by
  have hout : req.status ∉ validTransitions task.status →
      changeTaskStatus task req role hasEvidence now = .error .INVALID_TRANSITION := by
    intro h
    unfold changeTaskStatus
    rw [if_pos h]
  refine ⟨?_, fun h => ⟨hout h, rfl⟩, ?_, ?_, rfl, rfl, rfl, rfl, rfl⟩
  · intro ⟨t, ht⟩
    by_contra h
    rw [hout h] at ht
    exact Except.noConfusion ht
  · intro hclosed
    apply hout
    rw [hclosed]
    exact List.not_mem_nil _
  · intro hopen hreq
    apply hout
    rw [hopen, hreq]
    decide

/-- Concrete task and request for the C5 witness: attempting to close an
OPEN task directly, with a privileged role and evidence present. -/
def taskC5 : TaskRow := ⟨"OPEN", some "progress notes", true, none⟩

def reqC5 : StatusReq := ⟨"CLOSED", some "done", none⟩

/-- Witness for C5: the OPEN to CLOSED attempt fails with
INVALID_TRANSITION and HTTP 422. -/
theorem task_transitions_C5_witness :
    taskC5.status = "OPEN"
      ∧ reqC5.status ∉ validTransitions taskC5.status
      ∧ changeTaskStatus taskC5 reqC5 "dpo" true 0 = .error .INVALID_TRANSITION
      ∧ httpStatusOf .INVALID_TRANSITION = 422 :=
  ⟨rfl, by decide,
   ((task_transitions_C5 taskC5 reqC5 "dpo" true 0).2.1 (by decide)).1,
   ((task_transitions_C5 taskC5 reqC5 "dpo" true 0).2.1 (by decide)).2⟩

/-! ## Response submission route
(src/server/src/routes/assessments.ts, PUT /:id/responses/:controlId) -/

/-- The control catalog fields read by the response route. -/
structure Control where
  id : String
  domainNumber : Nat
  riskLevel : String
  pointsYes : ℚ
  pointsPartial : ℚ
  weightMultiplier : ℚ
  objectiveEn : String
  regArticles : Option String
  transferRegArticles : Option String
  ncaRef : Option String
  mohPolicyRef : Option String
  evidenceGuidanceEn : Option String
  responsibleRoles : List String
deriving DecidableEq

/-- A Response row as written by the route (audit columns omitted;
lastModifiedBy none until the first in-place update). -/
structure ResponseRow where
  assessmentId : String
  controlId : String
  answer : String
  naJustification : Option String
  pointsEarned : ℚ
  notes : Option String
  answeredBy : String
  lastModifiedBy : Option String
deriving DecidableEq

/-- A RemediationTask row as created by the route; deadline is in days,
addDays (new Date(), d) modelled as now + d. -/
structure TaskRec where
  assessmentId : String
  controlId : String
  gapType : String
  riskLevel : String
  title : String
  status : String
  legalBasis : String
  evidenceRequired : List String
  responsibleRole : Option String
  deadline : Int
  evidenceRequiredForClosure : Bool
deriving DecidableEq

/-- Request-independent surroundings of one submission: the assessment's
status (the assessment itself is assumed found), the caller's org type and
user id, the control catalog, and the request instant in days. -/
structure SubmitCtx where
  assessmentStatus : String
  orgType : String
  controls : List Control
  userId : String
  now : Int
deriving DecidableEq

/-- The mutable rows the route touches. -/
structure SubmitState where
  responses : List ResponseRow
  tasks : List TaskRec
deriving DecidableEq

/-- JS String.prototype.startsWith, stated on the character lists. -/
def strStartsWith (s p : String) : Bool := p.data.isPrefixOf s.data

/-- JS String.prototype.substring(0, n), stated on the character lists. -/
def strTake (s : String) (n : Nat) : String := String.mk (s.data.take n)

/-- mandatoryControls list from the route (rule 4, no N/A for health
orgs). -/
def mandatoryControls : List String :=
  ["PDPL-C.1", "PDPL-G.1", "HS-PDPL-001", "HS-PDPL-002", "HS-PDPL-003"]

/-- prisma.control.findUnique on the catalog. -/
def findControl (ctx : SubmitCtx) (cid : String) : Option Control :=
  ctx.controls.find? (fun c => c.id == cid)

/-- The validation prefix of the route, in source order: answer enum,
editability, control existence, the mandatory-control N/A guard, and the
N/A justification guard (the JS condition !naJustification ||
naJustification.length < 20). All checks precede every write. -/
def submitCheck (ctx : SubmitCtx) (cid answer : String) (naJustification : Option String) :
    Except ErrCode Control :=
  if answer ∉ ["YES", "PARTIAL", "NO", "NA"] then .error .VALIDATION_ERROR
  else if ctx.assessmentStatus ≠ "DRAFT" ∧ ctx.assessmentStatus ≠ "IN_REVIEW" then
    .error .ASSESSMENT_LOCKED
  else
    match findControl ctx cid with
    | none => .error .NOT_FOUND
    | some c =>
      if answer = "NA" ∧ cid ∈ mandatoryControls ∧ isHealthOrg ctx.orgType = true then
        .error .MANDATORY_CONTROL
      else if answer = "NA" ∧ (truthy naJustification = false
          ∨ (naJustification.getD "").length < 20) then
        .error .JUSTIFICATION_REQUIRED
      else .ok c

/-- Replace the first element satisfying p (prisma update-by-id after a
find). -/
def updateFirst (p : α → Bool) (f : α → α) : List α → List α
  | [] => []
  | x :: xs => if p x then f x :: xs else x :: updateFirst p f xs

/-- The unique key assessmentId_controlId of a Response row. -/
def respKey (aid cid : String) (r : ResponseRow) : Bool :=
  r.assessmentId == aid && r.controlId == cid

/-- The (assessmentId, controlId) key the task auto-creation queries. -/
def taskKey (aid cid : String) (t : TaskRec) : Bool :=
  t.assessmentId == aid && t.controlId == cid

/-- The response upsert of the route: update in place when the unique pair
exists (Prisma skips an undefined notes field), else create. -/
def upsertResponse (ctx : SubmitCtx) (aid cid answer : String)
    (naJustification notes : Option String) (pointsEarned : ℚ)
    (rs : List ResponseRow) : List ResponseRow :=
  match rs.find? (respKey aid cid) with
  | some _ =>
    updateFirst (respKey aid cid)
      (fun r => { r with
          answer := answer
          naJustification := if answer = "NA" then naJustification else none
          pointsEarned := pointsEarned
          notes := match notes with | none => r.notes | some v => some v
          lastModifiedBy := some ctx.userId }) rs
  | none =>
    rs ++ [{ assessmentId := aid, controlId := cid, answer := answer,
             naJustification := if answer = "NA" then naJustification else none,
             pointsEarned := pointsEarned, notes := notes,
             answeredBy := ctx.userId, lastModifiedBy := none }]

/-- legalBasis of an auto-created task: the four citation fields,
filter(Boolean) dropping absent and empty strings, joined by a bar. -/
def joinLegalBasis (c : Control) : String :=
  String.intercalate " | "
    (([c.regArticles, c.transferRegArticles, c.ncaRef, c.mohPolicyRef].filterMap id).filter
      (fun s => s != ""))

/-- The RemediationTask created for a NO or PARTIAL answer. -/
def mkGapTask (ctx : SubmitCtx) (aid cid answer : String) (c : Control) : TaskRec :=
  { assessmentId := aid
    controlId := cid
    gapType := if answer = "NO" then "GAP" else "PARTIAL"
    riskLevel := c.riskLevel
    title := "Implement: " ++ strTake c.objectiveEn 200
    status := "OPEN"
    legalBasis := joinLegalBasis c
    evidenceRequired :=
      match c.evidenceGuidanceEn with
      | some g => if g = "" then [] else [g]
      | none => []
    responsibleRole :=
      match c.responsibleRoles.head? with
      | some r => if r = "" then none else some r
      | none => none
    deadline := ctx.now + (getDefaultDeadlineDays c.riskLevel : Int)
    evidenceRequiredForClosure := c.riskLevel == "CRITICAL" || c.riskLevel == "HIGH" }

/-- The unconditional urgent task of the T.8 auto-alert (controlId starting
with PDPL-T.8 answered YES), due immediately. -/
def mkT8Task (ctx : SubmitCtx) (aid cid : String) : TaskRec :=
  { assessmentId := aid
    controlId := cid
    gapType := "GAP"
    riskLevel := "CRITICAL"
    title := "URGENT: Transfer suspension required — " ++ cid
    status := "OPEN"
    legalBasis := "Transfer Reg. Art. 7"
    evidenceRequired := []
    responsibleRole := none
    deadline := ctx.now
    evidenceRequiredForClosure := true }

/-- The write phase of the route: response upsert, then the guarded
NO/PARTIAL task creation (checked against an existing task for the pair),
then the unguarded T.8 YES alert task. -/
def submitApply (ctx : SubmitCtx) (st : SubmitState) (aid cid answer : String)
    (naJustification notes : Option String) (c : Control) : SubmitState :=
  let pointsEarned := getPointsForAnswer answer c.pointsYes c.pointsPartial
  let rs := upsertResponse ctx aid cid answer naJustification notes pointsEarned st.responses
  let tasks1 :=
    if (answer = "NO" ∨ answer = "PARTIAL") ∧ st.tasks.find? (taskKey aid cid) = none
    then st.tasks ++ [mkGapTask ctx aid cid answer c] else st.tasks
  let tasks2 :=
    if strStartsWith cid "PDPL-T.8" = true ∧ answer = "YES"
    then tasks1 ++ [mkT8Task ctx aid cid] else tasks1
  ⟨rs, tasks2⟩

/-- PUT /assessments/:id/responses/:controlId after the assessment row is
found: validate, then write; an error writes nothing. -/
def submitResponse (ctx : SubmitCtx) (st : SubmitState) (aid cid answer : String)
    (naJustification notes : Option String) : Except ErrCode SubmitState :=
  match submitCheck ctx cid answer naJustification with
  | .error e => .error e
  | .ok c => .ok (submitApply ctx st aid cid answer naJustification notes c)

instance {ε α : Type} [DecidableEq ε] [DecidableEq α] : DecidableEq (Except ε α) := fun a b =>
  match a, b with
  | .error e, .error f =>
    if h : e = f then isTrue (by rw [h]) else isFalse (fun hh => by cases hh; exact h rfl)
  | .ok x, .ok y =>
    if h : x = y then isTrue (by rw [h]) else isFalse (fun hh => by cases hh; exact h rfl)
  | .error _, .ok _ => isFalse (fun hh => Except.noConfusion hh)
  | .ok _, .error _ => isFalse (fun hh => Except.noConfusion hh)

theorem submitResponse_ok_inv {ctx : SubmitCtx} {st st' : SubmitState}
    {aid cid answer : String} {j n : Option String}
    (h : submitResponse ctx st aid cid answer j n = .ok st') :
    ∃ c, submitCheck ctx cid answer j = .ok c
      ∧ st' = submitApply ctx st aid cid answer j n c := by
  unfold submitResponse at h
  cases hc : submitCheck ctx cid answer j with
  | error e => rw [hc] at h; exact Except.noConfusion h
  | ok c =>
    rw [hc] at h
    exact ⟨c, rfl, (Except.ok.inj h).symm⟩

theorem submitCheck_ok_inv {ctx : SubmitCtx} {cid answer : String} {j : Option String}
    {c : Control} (h : submitCheck ctx cid answer j = .ok c) :
    answer ∈ ["YES", "PARTIAL", "NO", "NA"]
      ∧ (ctx.assessmentStatus = "DRAFT" ∨ ctx.assessmentStatus = "IN_REVIEW")
      ∧ findControl ctx cid = some c := by
  unfold submitCheck at h
  by_cases hA : answer ∉ ["YES", "PARTIAL", "NO", "NA"]
  · rw [if_pos hA] at h; exact Except.noConfusion h
  · rw [if_neg hA] at h
    by_cases hB : ctx.assessmentStatus ≠ "DRAFT" ∧ ctx.assessmentStatus ≠ "IN_REVIEW"
    · rw [if_pos hB] at h; exact Except.noConfusion h
    · rw [if_neg hB] at h
      cases hf : findControl ctx cid with
      | none => rw [hf] at h; exact Except.noConfusion h
      | some c0 =>
        rw [hf] at h
        dsimp only at h
        refine ⟨not_not.mp hA, by tauto, ?_⟩
        by_cases hC : answer = "NA" ∧ cid ∈ mandatoryControls ∧ isHealthOrg ctx.orgType = true
        · rw [if_pos hC] at h; exact Except.noConfusion h
        · rw [if_neg hC] at h
          by_cases hD : answer = "NA" ∧ (truthy j = false ∨ (j.getD "").length < 20)
          · rw [if_pos hD] at h; exact Except.noConfusion h
          · rw [if_neg hD] at h
            exact congrArg some (Except.ok.inj h)

theorem find?_none_iff_filter_nil {α} {p : α → Bool} {l : List α} :
    l.find? p = none ↔ l.filter p = [] := by
  rw [List.find?_eq_none, List.filter_eq_nil_iff]

theorem length_filter_updateFirst {α} (p : α → Bool) (f : α → α)
    (hf : ∀ x, p (f x) = p x) (l : List α) :
    ((updateFirst p f l).filter p).length = (l.filter p).length := by
  induction l with
  | nil => rfl
  | cons x xs ih =>
    show ((if p x then f x :: xs else x :: updateFirst p f xs).filter p).length = _
    by_cases hx : p x = true
    · rw [if_pos hx]
      simp [List.filter_cons, hf x, hx]
    · rw [if_neg (by simpa using hx)]
      simp only [List.filter_cons, hx, if_neg]
      simp only [Bool.false_eq_true, if_false]
      exact ih

theorem respKey_new (ctx : SubmitCtx) (aid cid answer : String)
    (j notes : Option String) (pe : ℚ) :
    respKey aid cid
      { assessmentId := aid, controlId := cid, answer := answer,
        naJustification := if answer = "NA" then j else none,
        pointsEarned := pe, notes := notes,
        answeredBy := ctx.userId, lastModifiedBy := none } = true := by
  simp [respKey]

theorem respCount_upsert (ctx : SubmitCtx) (aid cid answer : String)
    (j notes : Option String) (pe : ℚ) (rs : List ResponseRow)
    (hr : (rs.filter (respKey aid cid)).length ≤ 1) :
    ((upsertResponse ctx aid cid answer j notes pe rs).filter (respKey aid cid)).length = 1 := by
  unfold upsertResponse
  cases hfind : rs.find? (respKey aid cid) with
  | none =>
    rw [find?_none_iff_filter_nil] at hfind
    rw [List.filter_append, hfind, List.nil_append, List.filter_cons,
      if_pos (by simp [respKey])]
    rfl
  | some r0 =>
    have hne : (rs.filter (respKey aid cid)).length ≠ 0 := by
      intro h0
      rw [List.length_eq_zero] at h0
      rw [find?_none_iff_filter_nil.mpr h0] at hfind
      exact Option.noConfusion hfind
    have hlen := length_filter_updateFirst (respKey aid cid)
      (fun r => { r with
          answer := answer
          naJustification := if answer = "NA" then j else none
          pointsEarned := pe
          notes := match notes with | none => r.notes | some v => some v
          lastModifiedBy := some ctx.userId }) (fun x => rfl) rs
    rw [hlen]
    omega

theorem submitApply_responses (ctx : SubmitCtx) (st : SubmitState)
    (aid cid answer : String) (j n : Option String) (c : Control) :
    (submitApply ctx st aid cid answer j n c).responses
      = upsertResponse ctx aid cid answer j n
          (getPointsForAnswer answer c.pointsYes c.pointsPartial) st.responses := rfl

theorem submitApply_tasks (ctx : SubmitCtx) (st : SubmitState)
    (aid cid answer : String) (j n : Option String) (c : Control) :
    (submitApply ctx st aid cid answer j n c).tasks
      = (if (answer = "NO" ∨ answer = "PARTIAL") ∧ st.tasks.find? (taskKey aid cid) = none
         then st.tasks ++ [mkGapTask ctx aid cid answer c] else st.tasks)
        ++ (if strStartsWith cid "PDPL-T.8" = true ∧ answer = "YES"
            then [mkT8Task ctx aid cid] else []) := by
  unfold submitApply
  by_cases h2 : strStartsWith cid "PDPL-T.8" = true ∧ answer = "YES" <;>
    simp [h2]

/-- C3 (amended): away from the unguarded T.8 YES alert path, submitting
the same (controlId, answer) twice for the same assessment leaves exactly
one Response row for the pair and creates no second RemediationTask: the
second submission leaves the task count for the pair unchanged and at most
one. -/
theorem submit_idem_C3 (ctx : SubmitCtx) (st st1 st2 : SubmitState)
    (aid cid answer : String) (j n : Option String)
    (hT8 : ¬ (strStartsWith cid "PDPL-T.8" = true ∧ answer = "YES"))
    (hr : (st.responses.filter (respKey aid cid)).length ≤ 1)
    (ht : (st.tasks.filter (taskKey aid cid)).length ≤ 1)
    (h1 : submitResponse ctx st aid cid answer j n = .ok st1)
    (h2 : submitResponse ctx st1 aid cid answer j n = .ok st2) :
    (st1.responses.filter (respKey aid cid)).length = 1
      ∧ (st2.responses.filter (respKey aid cid)).length = 1
      ∧ (st2.tasks.filter (taskKey aid cid)).length
          = (st1.tasks.filter (taskKey aid cid)).length
      ∧ (st1.tasks.filter (taskKey aid cid)).length ≤ 1 := by
  obtain ⟨c, hc, hst1⟩ := submitResponse_ok_inv h1
  obtain ⟨c2, hc2, hst2⟩ := submitResponse_ok_inv h2
  rw [hc] at hc2
  obtain rfl : c = c2 := Except.ok.inj hc2
  have hresp1 : (st1.responses.filter (respKey aid cid)).length = 1 := by
    rw [hst1, submitApply_responses]
    exact respCount_upsert _ _ _ _ _ _ _ _ hr
  have hresp2 : (st2.responses.filter (respKey aid cid)).length = 1 := by
    rw [hst2, submitApply_responses]
    exact respCount_upsert _ _ _ _ _ _ _ _ (le_of_eq hresp1)
  have htasks1 : st1.tasks
      = (if (answer = "NO" ∨ answer = "PARTIAL") ∧ st.tasks.find? (taskKey aid cid) = none
         then st.tasks ++ [mkGapTask ctx aid cid answer c] else st.tasks) := by
    rw [hst1, submitApply_tasks, if_neg hT8, List.append_nil]
  have htasks2 : st2.tasks
      = (if (answer = "NO" ∨ answer = "PARTIAL") ∧ st1.tasks.find? (taskKey aid cid) = none
         then st1.tasks ++ [mkGapTask ctx aid cid answer c] else st1.tasks) := by
    rw [hst2, submitApply_tasks, if_neg hT8, List.append_nil]
  by_cases hcase : (answer = "NO" ∨ answer = "PARTIAL") ∧ st.tasks.find? (taskKey aid cid) = none
  · -- first call creates the task; the second finds it and creates nothing
    have hfilnil : st.tasks.filter (taskKey aid cid) = [] :=
      find?_none_iff_filter_nil.mp hcase.2
    have hcnt1 : (st1.tasks.filter (taskKey aid cid)).length = 1 := by
      rw [htasks1, if_pos hcase, List.filter_append, hfilnil, List.nil_append,
        List.filter_cons, if_pos (by simp [taskKey, mkGapTask])]
      rfl
    have hfind1 : ¬ st1.tasks.find? (taskKey aid cid) = none := by
      intro hnone
      rw [find?_none_iff_filter_nil] at hnone
      rw [hnone] at hcnt1
      exact absurd hcnt1 (by decide)
    have : st2.tasks = st1.tasks := by
      rw [htasks2, if_neg (fun hh => hfind1 hh.2)]
    exact ⟨hresp1, hresp2, by rw [this], le_of_eq hcnt1⟩
  · -- first call creates nothing, so neither does the second
    have hst1t : st1.tasks = st.tasks := by rw [htasks1, if_neg hcase]
    have hst2t : st2.tasks = st.tasks := by
      rw [htasks2, hst1t, if_neg hcase]
    exact ⟨hresp1, hresp2, by rw [hst1t, hst2t], by rw [hst1t]; exact ht⟩

/-- A transfer-suspension family control, for the C3 counterexample. -/
def controlT8 : Control :=
  ⟨"PDPL-T.8", 5, "CRITICAL", 10, 5, 1, "Suspend transfers on SDAIA order",
   some "Art. 29", none, none, none, some "Transfer logs", ["dpo"]⟩

def ctxC3 : SubmitCtx := ⟨"DRAFT", "private_hospital", [controlT8], "u1", 20000⟩

def rowT8a : ResponseRow := ⟨"a1", "PDPL-T.8", "YES", none, 10, none, "u1", none⟩

def rowT8b : ResponseRow := ⟨"a1", "PDPL-T.8", "YES", none, 10, none, "u1", some "u1"⟩

/-- Counterexample to C3 as stated: submitting (PDPL-T.8, YES) twice for
the same assessment creates two RemediationTask rows for the
(assessmentId, controlId) pair, because the T.8 YES alert path creates its
task without checking for an existing one (the Response row is still
unique). -/
theorem submit_idem_C3_counterexample :
    submitResponse ctxC3 ⟨[], []⟩ "a1" "PDPL-T.8" "YES" none none
        = .ok ⟨[rowT8a], [mkT8Task ctxC3 "a1" "PDPL-T.8"]⟩
      ∧ submitResponse ctxC3 ⟨[rowT8a], [mkT8Task ctxC3 "a1" "PDPL-T.8"]⟩
          "a1" "PDPL-T.8" "YES" none none
        = .ok ⟨[rowT8b], [mkT8Task ctxC3 "a1" "PDPL-T.8", mkT8Task ctxC3 "a1" "PDPL-T.8"]⟩
      ∧ (([mkT8Task ctxC3 "a1" "PDPL-T.8", mkT8Task ctxC3 "a1" "PDPL-T.8"] : List TaskRec).filter
            (taskKey "a1" "PDPL-T.8")).length = 2
      ∧ (([rowT8b] : List ResponseRow).filter (respKey "a1" "PDPL-T.8")).length = 1 :=
  ⟨by decide, by decide, by decide, by decide⟩

/-- A mandatory governance control, for witnesses of C3 and C7. -/
def controlG1 : Control :=
  ⟨"PDPL-G.1", 1, "CRITICAL", 10, 5, 1, "Appoint a DPO",
   some "Reg. Art. 32(1)(c)", none, none, none, some "Appointment letter", ["dpo"]⟩

def ctxG1 : SubmitCtx := ⟨"DRAFT", "private_hospital", [controlG1], "u1", 20000⟩

def rowG1a : ResponseRow := ⟨"a1", "PDPL-G.1", "NO", none, 0, none, "u1", none⟩

def rowG1b : ResponseRow := ⟨"a1", "PDPL-G.1", "NO", none, 0, none, "u1", some "u1"⟩

def stG1one : SubmitState := ⟨[rowG1a], [mkGapTask ctxG1 "a1" "PDPL-G.1" "NO" controlG1]⟩

def stG1two : SubmitState := ⟨[rowG1b], [mkGapTask ctxG1 "a1" "PDPL-G.1" "NO" controlG1]⟩

/-- Witness for the amended C3 at a concrete NO answer submitted twice. -/
theorem submit_idem_C3_witness :
    (¬ (strStartsWith "PDPL-G.1" "PDPL-T.8" = true ∧ "NO" = "YES"))
      ∧ submitResponse ctxG1 ⟨[], []⟩ "a1" "PDPL-G.1" "NO" none none = .ok stG1one
      ∧ submitResponse ctxG1 stG1one "a1" "PDPL-G.1" "NO" none none = .ok stG1two
      ∧ ((stG1one.responses.filter (respKey "a1" "PDPL-G.1")).length = 1
          ∧ (stG1two.responses.filter (respKey "a1" "PDPL-G.1")).length = 1
          ∧ (stG1two.tasks.filter (taskKey "a1" "PDPL-G.1")).length
              = (stG1one.tasks.filter (taskKey "a1" "PDPL-G.1")).length
          ∧ (stG1one.tasks.filter (taskKey "a1" "PDPL-G.1")).length ≤ 1) :=
  ⟨by decide, by decide, by decide,
   submit_idem_C3 ctxG1 ⟨[], []⟩ stG1one stG1two "a1" "PDPL-G.1" "NO" none none
     (by decide) (by decide) (by decide) (by decide) (by decide)⟩

/-- C7: a NO or PARTIAL answer with no existing task for the pair creates
exactly one RemediationTask whose deadline is the submission instant plus
the riskLevel day offset and whose evidenceRequiredForClosure holds iff the
risk level is CRITICAL or HIGH; the offset table is CRITICAL 30, HIGH 60,
MEDIUM 90, LOW 180, anything else 90. -/
theorem submit_deadline_C7 (ctx : SubmitCtx) (st st1 : SubmitState)
    (aid cid answer : String) (j n : Option String) (c : Control)
    (hans : answer = "NO" ∨ answer = "PARTIAL")
    (hctl : findControl ctx cid = some c)
    (hnotask : st.tasks.find? (taskKey aid cid) = none)
    (h1 : submitResponse ctx st aid cid answer j n = .ok st1) :
    st1.tasks = st.tasks ++ [mkGapTask ctx aid cid answer c]
      ∧ (mkGapTask ctx aid cid answer c).deadline
          = ctx.now + (getDefaultDeadlineDays c.riskLevel : Int)
      ∧ ((mkGapTask ctx aid cid answer c).evidenceRequiredForClosure = true
          ↔ (c.riskLevel = "CRITICAL" ∨ c.riskLevel = "HIGH"))
      ∧ (mkGapTask ctx aid cid answer c).assessmentId = aid
      ∧ (mkGapTask ctx aid cid answer c).controlId = cid
      ∧ (mkGapTask ctx aid cid answer c).status = "OPEN"
      ∧ (mkGapTask ctx aid cid answer c).gapType
          = (if answer = "NO" then "GAP" else "PARTIAL")
      ∧ getDefaultDeadlineDays "CRITICAL" = 30
      ∧ getDefaultDeadlineDays "HIGH" = 60
      ∧ getDefaultDeadlineDays "MEDIUM" = 90
      ∧ getDefaultDeadlineDays "LOW" = 180
      ∧ (∀ r : String, r ≠ "CRITICAL" → r ≠ "HIGH" → r ≠ "MEDIUM" → r ≠ "LOW" →
          getDefaultDeadlineDays r = 90) := by
  obtain ⟨c', hc, hst1⟩ := submitResponse_ok_inv h1
  have hfc := (submitCheck_ok_inv hc).2.2
  rw [hctl] at hfc
  obtain rfl : c = c' := Option.some.inj hfc
  refine ⟨?_, rfl, ?_, rfl, rfl, rfl, rfl, rfl, rfl, rfl, rfl, ?_⟩
  · rw [hst1, submitApply_tasks, if_pos ⟨hans, hnotask⟩,
      if_neg (fun hcon => by
        rcases hans with ha | ha <;> rw [ha] at hcon <;>
          exact absurd hcon.2 (by decide)),
      List.append_nil]
  · simp [mkGapTask, Bool.or_eq_true, beq_iff_eq]
  · intro r h1' h2' h3' h4'
    simp [getDefaultDeadlineDays, h1', h2', h3', h4']

/-- Witness for C7: NO on the CRITICAL control PDPL-G.1 yields a task due
now + 30 with evidenceRequiredForClosure true. -/
theorem submit_deadline_C7_witness :
    ("NO" = "NO" ∨ "NO" = "PARTIAL")
      ∧ findControl ctxG1 "PDPL-G.1" = some controlG1
      ∧ (([] : List TaskRec).find? (taskKey "a1" "PDPL-G.1") = none)
      ∧ submitResponse ctxG1 ⟨[], []⟩ "a1" "PDPL-G.1" "NO" none none = .ok stG1one
      ∧ (stG1one.tasks = [] ++ [mkGapTask ctxG1 "a1" "PDPL-G.1" "NO" controlG1]
          ∧ (mkGapTask ctxG1 "a1" "PDPL-G.1" "NO" controlG1).deadline = 20030
          ∧ (mkGapTask ctxG1 "a1" "PDPL-G.1" "NO" controlG1).evidenceRequiredForClosure = true) := by
  have hmain := submit_deadline_C7 ctxG1 ⟨[], []⟩ stG1one "a1" "PDPL-G.1" "NO" none none
    controlG1 (Or.inl rfl) (by decide) rfl (by decide)
  refine ⟨Or.inl rfl, by decide, rfl, by decide, hmain.1, ?_, ?_⟩
  · rw [hmain.2.1]
    decide
  · rw [hmain.2.2.1.mpr (Or.inl rfl)]

/-- A non-mandatory control, for the C8 counterexample and witness. -/
def controlR1 : Control :=
  ⟨"PDPL-R.1", 3, "MEDIUM", 10, 5, 1, "Respond to data subject requests",
   some "Art. 13", none, none, none, none, []⟩

def ctxC8 : SubmitCtx := ⟨"DRAFT", "private_hospital", [controlR1], "u1", 20000⟩

/-- Counterexample to C8 as stated: a 9-character justification on an NA
answer is rejected with the stable code JUSTIFICATION_REQUIRED, not
VALIDATION_ERROR. -/
theorem submit_najust_C8_counterexample :
    submitResponse ctxC8 ⟨[], []⟩ "a1" "PDPL-R.1" "NA" (some "too short") none
        = .error .JUSTIFICATION_REQUIRED
      ∧ ErrCode.JUSTIFICATION_REQUIRED ≠ ErrCode.VALIDATION_ERROR
      ∧ ("too short" : String).length < 20 := by decide

/-- C8 (amended): on an editable assessment, an NA answer on a found,
not-mandatory-blocked control whose justification is absent or shorter
than 20 characters fails with JUSTIFICATION_REQUIRED and writes no
Response (no ok state exists); a justification of 20 characters or more
passes the check and the submission succeeds. -/
theorem submit_najust_C8 (ctx : SubmitCtx) (st : SubmitState) (aid cid : String)
    (j n : Option String) (c : Control)
    (hstatus : ctx.assessmentStatus = "DRAFT" ∨ ctx.assessmentStatus = "IN_REVIEW")
    (hctl : findControl ctx cid = some c)
    (hmand : ¬ (cid ∈ mandatoryControls ∧ isHealthOrg ctx.orgType = true)) :
    ((j.getD "").length < 20 →
        submitResponse ctx st aid cid "NA" j n = .error .JUSTIFICATION_REQUIRED
          ∧ ∀ st1, submitResponse ctx st aid cid "NA" j n ≠ .ok st1)
      ∧ (20 ≤ (j.getD "").length →
          submitResponse ctx st aid cid "NA" j n
            = .ok (submitApply ctx st aid cid "NA" j n c)) := by
  have hstatusneg : ¬ (ctx.assessmentStatus ≠ "DRAFT" ∧ ctx.assessmentStatus ≠ "IN_REVIEW") := by
    tauto
  have hmand2 : ¬ ("NA" = "NA" ∧ cid ∈ mandatoryControls ∧ isHealthOrg ctx.orgType = true) := by
    intro hcon
    exact hmand hcon.2
  constructor
  · intro hlen
    have hcheck : submitCheck ctx cid "NA" j = .error .JUSTIFICATION_REQUIRED := by
      unfold submitCheck
      rw [if_neg (by decide : ¬ ("NA" ∉ ["YES", "PARTIAL", "NO", "NA"])), if_neg hstatusneg,
        hctl]
      dsimp only
      rw [if_neg hmand2, if_pos ⟨rfl, Or.inr hlen⟩]
    refine ⟨?_, ?_⟩
    · unfold submitResponse
      rw [hcheck]
    · intro st1 hok
      unfold submitResponse at hok
      rw [hcheck] at hok
      exact Except.noConfusion hok
  · intro hlen
    have hjust : ¬ ("NA" = "NA" ∧ (truthy j = false ∨ (j.getD "").length < 20)) := by
      rintro ⟨-, hcase | hcase⟩
      · cases j with
        | none => exact absurd hlen (by decide)
        | some v =>
          by_cases hv : v = ""
          · rw [hv] at hlen
            exact absurd hlen (by decide)
          · rw [show truthy (some v) = true from by simp [truthy, hv]] at hcase
            exact Bool.noConfusion hcase
      · omega
    have hcheck : submitCheck ctx cid "NA" j = .ok c := by
      unfold submitCheck
      rw [if_neg (by decide : ¬ ("NA" ∉ ["YES", "PARTIAL", "NO", "NA"])), if_neg hstatusneg,
        hctl]
      dsimp only
      rw [if_neg hmand2, if_neg hjust]
    unfold submitResponse
    rw [hcheck]

/-- Witness for the amended C8: the short side at a 9-character
justification and the passing side at a 44-character justification. -/
theorem submit_najust_C8_witness :
    (ctxC8.assessmentStatus = "DRAFT" ∨ ctxC8.assessmentStatus = "IN_REVIEW")
      ∧ findControl ctxC8 "PDPL-R.1" = some controlR1
      ∧ ((some "too short" : Option String).getD "").length < 20
      ∧ ((some "No personal data is processed in this branch" : Option String).getD "").length ≥ 20
      ∧ submitResponse ctxC8 ⟨[], []⟩ "a1" "PDPL-R.1" "NA" (some "too short") none
          = .error .JUSTIFICATION_REQUIRED
      ∧ submitResponse ctxC8 ⟨[], []⟩ "a1" "PDPL-R.1" "NA"
          (some "No personal data is processed in this branch") none
          = .ok (submitApply ctxC8 ⟨[], []⟩ "a1" "PDPL-R.1" "NA"
              (some "No personal data is processed in this branch") none controlR1) :=
  ⟨Or.inl rfl, by decide, by decide, by decide,
   ((submit_najust_C8 ctxC8 ⟨[], []⟩ "a1" "PDPL-R.1" (some "too short") none controlR1
      (Or.inl rfl) (by decide) (by decide)).1 (by decide)).1,
   (submit_najust_C8 ctxC8 ⟨[], []⟩ "a1" "PDPL-R.1"
      (some "No personal data is processed in this branch") none controlR1
      (Or.inl rfl) (by decide) (by decide)).2 (by decide)⟩

/-! ## Assessment creation route
(src/server/src/routes/assessments.ts, POST /assessments) -/

/-- The assessment columns the creation route reads and writes, for one
organization (rows of other orgs never interact with this query). -/
structure AssessRow where
  assessmentVersion : Nat
  status : String
deriving DecidableEq

/-- findFirst ordered by assessmentVersion descending: the row with the
greatest version (the first seen wins a tie). -/
def latestAssessment (l : List AssessRow) : Option AssessRow :=
  l.foldl (fun acc a =>
    match acc with
    | none => some a
    | some b => if b.assessmentVersion < a.assessmentVersion then some a else some b) none

/-- newVersion = latest.version + 1, or 1 when the org has no assessment
yet. -/
def nextVersion (l : List AssessRow) : Nat :=
  match latestAssessment l with
  | none => 1
  | some la => la.assessmentVersion + 1

/-- POST /assessments after the onboarding check: archive the latest
assessment when it is not already ARCHIVED (update-by-id rendered as
update of the row carrying the latest version), then insert the new DRAFT
row with the next version. -/
def createAssessment (l : List AssessRow) : List AssessRow :=
  match latestAssessment l with
  | none => l ++ [⟨1, "DRAFT"⟩]
  | some la =>
    (if la.status ≠ "ARCHIVED"
     then updateFirst (fun a => a.assessmentVersion == la.assessmentVersion)
            (fun a => { a with status := "ARCHIVED" }) l
     else l) ++ [⟨la.assessmentVersion + 1, "DRAFT"⟩]

/-- PUT /assessments/:id/submit-review: only a DRAFT assessment moves to
IN_REVIEW; a missing id or any other status fails INVALID_STATUS and
writes nothing. Rows are addressed by their version (versions are unique
in every reachable state, as the stairsOn shape below shows). -/
def submitForReview (v : Nat) (l : List AssessRow) : Except ErrCode (List AssessRow) :=
  match l.find? (fun a => a.assessmentVersion == v) with
  | none => .error .INVALID_STATUS
  | some a =>
    if a.status = "DRAFT"
    then .ok (updateFirst (fun x => x.assessmentVersion == v)
        (fun x => { x with status := "IN_REVIEW" }) l)
    else .error .INVALID_STATUS

/-- POST /assessments/:id/finalize, restricted to the columns of this
table: a DRAFT or IN_REVIEW assessment becomes FINALIZED (the scores the
route also writes sit in columns outside this status machine); a missing
id fails NOT_FOUND, any other status INVALID_STATUS. -/
def finalizeAssessment (v : Nat) (l : List AssessRow) : Except ErrCode (List AssessRow) :=
  match l.find? (fun a => a.assessmentVersion == v) with
  | none => .error .NOT_FOUND
  | some a =>
    if a.status ≠ "DRAFT" ∧ a.status ≠ "IN_REVIEW" then .error .INVALID_STATUS
    else .ok (updateFirst (fun x => x.assessmentVersion == v)
        (fun x => { x with status := "FINALIZED" }) l)

/-- Assessment lists reachable through the routes that mutate this table:
creation, submit-review and finalize (an erroring call writes nothing and
leaves the state unchanged). The latest assessment at creation time can
therefore be DRAFT, IN_REVIEW or FINALIZED. -/
inductive ReachableAssessments : List AssessRow → Prop where
  | init : ReachableAssessments []
  | create (l : List AssessRow) :
      ReachableAssessments l → ReachableAssessments (createAssessment l)
  | review (v : Nat) (l l' : List AssessRow) :
      ReachableAssessments l → submitForReview v l = .ok l' → ReachableAssessments l'
  | finalize (v : Nat) (l l' : List AssessRow) :
      ReachableAssessments l → finalizeAssessment v l = .ok l' → ReachableAssessments l'

/-- n archived assessments, versions 1 to n. -/
def archStairs : Nat → List AssessRow
  | 0 => []
  | n + 1 => archStairs n ++ [⟨n + 1, "ARCHIVED"⟩]

/-- The shape of every nonempty reachable list: n archived assessments
followed by one row at version n + 1 whose status s is DRAFT, IN_REVIEW
or FINALIZED. -/
def stairsOn (n : Nat) (s : String) : List AssessRow := archStairs n ++ [⟨n + 1, s⟩]

theorem latestAssessment_append (l : List AssessRow) (x : AssessRow) :
    latestAssessment (l ++ [x])
      = match latestAssessment l with
        | none => some x
        | some b => if b.assessmentVersion < x.assessmentVersion then some x else some b := by
  unfold latestAssessment
  rw [List.foldl_append]
  rfl

theorem mem_archStairs {n : Nat} {a : AssessRow} (ha : a ∈ archStairs n) :
    a.assessmentVersion ≤ n ∧ a.status = "ARCHIVED" := by
  induction n with
  | zero => exact absurd ha (List.not_mem_nil a)
  | succ n ih =>
    rcases List.mem_append.mp ha with h | h
    · exact ⟨le_trans (ih h).1 (Nat.le_succ n), (ih h).2⟩
    · rw [List.mem_singleton.mp h]
      exact ⟨le_refl _, rfl⟩

theorem latestAssessment_archStairs (n : Nat) :
    latestAssessment (archStairs n)
      = if n = 0 then none else some ⟨n, "ARCHIVED"⟩ := by
  induction n with
  | zero => rfl
  | succ n ih =>
    rw [archStairs, latestAssessment_append, ih]
    by_cases hn : n = 0
    · subst hn
      rfl
    · rw [if_neg hn]
      dsimp only
      rw [if_pos (by omega), if_neg (by omega)]

theorem latestAssessment_stairsOn (n : Nat) (s : String) :
    latestAssessment (stairsOn n s) = some ⟨n + 1, s⟩ := by
  rw [stairsOn, latestAssessment_append, latestAssessment_archStairs]
  by_cases hn : n = 0
  · subst hn
    rfl
  · rw [if_neg hn]
    dsimp only
    rw [if_pos (by omega)]

theorem updateFirst_append_of_none {α} (p : α → Bool) (f : α → α)
    (l1 l2 : List α) (h : ∀ a ∈ l1, p a = false) :
    updateFirst p f (l1 ++ l2) = l1 ++ updateFirst p f l2 := by
  induction l1 with
  | nil => rfl
  | cons x xs ih =>
    rw [List.cons_append]
    show (if p x then f x :: (xs ++ l2) else x :: updateFirst p f (xs ++ l2)) = _
    rw [if_neg (by simp [h x (List.mem_cons_self x xs)]),
      ih (fun a ha => h a (List.mem_cons_of_mem x ha)), List.cons_append]

theorem archStairs_update (n : Nat) (s : String) :
    updateFirst (fun a => a.assessmentVersion == n + 1)
      (fun a => { a with status := "ARCHIVED" }) (stairsOn n s) = archStairs (n + 1) := by
  rw [stairsOn, updateFirst_append_of_none _ _ _ _
    (fun a ha => by
      have := (mem_archStairs ha).1
      simp only [beq_eq_false_iff_ne, ne_eq]
      omega)]
  show archStairs n ++ (if ((n + 1 : Nat) == n + 1) = true then _ else _) = _
  rw [if_pos (by simp)]
  rfl

theorem createAssessment_nil : createAssessment [] = stairsOn 0 "DRAFT" := rfl

theorem createAssessment_stairsOn (n : Nat) (s : String) (hs : s ≠ "ARCHIVED") :
    createAssessment (stairsOn n s) = stairsOn (n + 1) "DRAFT" := by
  unfold createAssessment
  rw [latestAssessment_stairsOn]
  dsimp only
  rw [if_pos hs, archStairs_update n s]
  rfl

theorem find?_append_some {α} {p : α → Bool} {l1 : List α} {a : α} (l2 : List α)
    (h : l1.find? p = some a) : (l1 ++ l2).find? p = some a := by
  induction l1 with
  | nil => exact absurd h (by simp)
  | cons x xs ih =>
    rw [List.cons_append]
    by_cases hx : p x = true
    · rw [List.find?_cons_of_pos _ hx] at h ⊢
      exact h
    · rw [List.find?_cons_of_neg _ hx] at h ⊢
      exact ih h

theorem find?_append_none {α} {p : α → Bool} {l1 : List α} (l2 : List α)
    (h : l1.find? p = none) : (l1 ++ l2).find? p = l2.find? p := by
  induction l1 with
  | nil => rfl
  | cons x xs ih =>
    rw [List.cons_append]
    by_cases hx : p x = true
    · rw [List.find?_cons_of_pos _ hx] at h
      exact Option.noConfusion h
    · rw [List.find?_cons_of_neg _ hx] at h ⊢
      exact ih h

theorem find?_stairsOn_top {n : Nat} {s : String} {v : Nat}
    (hfind : (archStairs n).find? (fun a => a.assessmentVersion == v) = none) :
    (stairsOn n s).find? (fun a => a.assessmentVersion == v)
      = if ((n + 1 : Nat) == v) = true then some ⟨n + 1, s⟩ else none := by
  rw [stairsOn, find?_append_none _ hfind]
  by_cases hv : ((n + 1 : Nat) == v) = true
  · rw [if_pos hv]
    exact List.find?_cons_of_pos _ hv
  · rw [if_neg hv]
    exact List.find?_cons_of_neg _ (fun hcon => hv hcon)

theorem updateFirst_stairsOn_top {n : Nat} {s s' : String} {v : Nat}
    (hfind : (archStairs n).find? (fun a => a.assessmentVersion == v) = none)
    (hv : ((n + 1 : Nat) == v) = true) :
    updateFirst (fun x => x.assessmentVersion == v)
      (fun x => { x with status := s' }) (stairsOn n s) = stairsOn n s' := by
  rw [stairsOn, updateFirst_append_of_none _ _ _ _
    (fun a ha => by simpa using List.find?_eq_none.mp hfind a ha)]
  show archStairs n ++ (if ((n + 1 : Nat) == v) = true then _ else _) = _
  rw [if_pos hv]
  rfl

theorem submitForReview_ok_shape {v n : Nat} {s : String} {l' : List AssessRow}
    (h : submitForReview v (stairsOn n s) = .ok l') :
    s = "DRAFT" ∧ l' = stairsOn n "IN_REVIEW" := by
  unfold submitForReview at h
  cases hfind : (archStairs n).find? (fun a => a.assessmentVersion == v) with
  | some a =>
    rw [show (stairsOn n s).find? (fun a => a.assessmentVersion == v) = some a from by
      rw [stairsOn]; exact find?_append_some _ hfind] at h
    dsimp only at h
    have ha := mem_archStairs (List.mem_of_find?_eq_some hfind)
    rw [if_neg (by rw [ha.2]; decide)] at h
    exact Except.noConfusion h
  | none =>
    rw [find?_stairsOn_top hfind] at h
    by_cases hv : ((n + 1 : Nat) == v) = true
    · rw [if_pos hv] at h
      dsimp only at h
      by_cases hs : s = "DRAFT"
      · rw [if_pos hs] at h
        exact ⟨hs, (Except.ok.inj h).symm.trans (updateFirst_stairsOn_top hfind hv)⟩
      · rw [if_neg hs] at h
        exact Except.noConfusion h
    · rw [if_neg hv] at h
      exact Except.noConfusion h

theorem finalizeAssessment_ok_shape {v n : Nat} {s : String} {l' : List AssessRow}
    (h : finalizeAssessment v (stairsOn n s) = .ok l') :
    (s = "DRAFT" ∨ s = "IN_REVIEW") ∧ l' = stairsOn n "FINALIZED" := by
  unfold finalizeAssessment at h
  cases hfind : (archStairs n).find? (fun a => a.assessmentVersion == v) with
  | some a =>
    rw [show (stairsOn n s).find? (fun a => a.assessmentVersion == v) = some a from by
      rw [stairsOn]; exact find?_append_some _ hfind] at h
    dsimp only at h
    have ha := mem_archStairs (List.mem_of_find?_eq_some hfind)
    rw [if_pos (by rw [ha.2]; exact ⟨by decide, by decide⟩)] at h
    exact Except.noConfusion h
  | none =>
    rw [find?_stairsOn_top hfind] at h
    by_cases hv : ((n + 1 : Nat) == v) = true
    · rw [if_pos hv] at h
      dsimp only at h
      by_cases hs : s ≠ "DRAFT" ∧ s ≠ "IN_REVIEW"
      · rw [if_pos hs] at h
        exact Except.noConfusion h
      · rw [if_neg hs] at h
        refine ⟨?_, (Except.ok.inj h).symm.trans (updateFirst_stairsOn_top hfind hv)⟩
        rcases not_and_or.mp hs with hd | hr
        · exact Or.inl (not_not.mp hd)
        · exact Or.inr (not_not.mp hr)
    · rw [if_neg hv] at h
      exact Except.noConfusion h

theorem reachable_form {l : List AssessRow} (h : ReachableAssessments l) :
    l = [] ∨ ∃ n s, (s = "DRAFT" ∨ s = "IN_REVIEW" ∨ s = "FINALIZED") ∧ l = stairsOn n s := by
  induction h with
  | init => exact Or.inl rfl
  | create l hl ih =>
    rcases ih with rfl | ⟨n, s, hs, rfl⟩
    · exact Or.inr ⟨0, "DRAFT", Or.inl rfl, createAssessment_nil⟩
    · have hsa : s ≠ "ARCHIVED" := by rcases hs with rfl | rfl | rfl <;> decide
      exact Or.inr ⟨n + 1, "DRAFT", Or.inl rfl, createAssessment_stairsOn n s hsa⟩
  | review v l l' hl hok ih =>
    rcases ih with rfl | ⟨n, s, hs, rfl⟩
    · rw [show submitForReview v [] = .error .INVALID_STATUS from rfl] at hok
      exact Except.noConfusion hok
    · obtain ⟨-, rfl⟩ := submitForReview_ok_shape hok
      exact Or.inr ⟨n, "IN_REVIEW", Or.inr (Or.inl rfl), rfl⟩
  | finalize v l l' hl hok ih =>
    rcases ih with rfl | ⟨n, s, hs, rfl⟩
    · rw [show finalizeAssessment v [] = .error .NOT_FOUND from rfl] at hok
      exact Except.noConfusion hok
    · obtain ⟨-, rfl⟩ := finalizeAssessment_ok_shape hok
      exact Or.inr ⟨n, "FINALIZED", Or.inr (Or.inr rfl), rfl⟩

theorem filter_archStairs (n : Nat) :
    (archStairs n).filter (fun a => a.status != "ARCHIVED") = [] := by
  induction n with
  | zero => rfl
  | succ n ih =>
    rw [archStairs, List.filter_append, ih]
    rfl

theorem nonArchived_stairsOn (n : Nat) (s : String) (hs : s ≠ "ARCHIVED") :
    (stairsOn n s).filter (fun a => a.status != "ARCHIVED") = [⟨n + 1, s⟩] := by
  rw [stairsOn, List.filter_append, filter_archStairs, List.nil_append]
  simp [hs]

theorem archStairs_length (n : Nat) : (archStairs n).length = n := by
  induction n with
  | zero => rfl
  | succ n ih =>
    rw [archStairs, List.length_append, ih]
    rfl

/-- C4: in every state the creation, submit-review and finalize routes can
produce, at most one assessment is non-ARCHIVED; creating a new assessment
keeps that invariant, archives every previous row — in particular the
previous latest, whatever its status (DRAFT, IN_REVIEW or FINALIZED) —
appends the new row in DRAFT with version nextVersion (previous latest
version plus 1, or 1 when none), and drops no row; the second creation for
an org whose first assessment is still DRAFT archives the first and
carries version 2. -/
theorem assessment_archival_C4 (l : List AssessRow) (h : ReachableAssessments l) :
    ((l.filter (fun a => a.status != "ARCHIVED")).length ≤ 1)
      ∧ (((createAssessment l).filter (fun a => a.status != "ARCHIVED")).length ≤ 1)
      ∧ (∃ pre, createAssessment l = pre ++ [⟨nextVersion l, "DRAFT"⟩]
          ∧ (∀ a ∈ pre, a.status = "ARCHIVED")
          ∧ pre.length = l.length)
      ∧ createAssessment (createAssessment []) = [⟨1, "ARCHIVED"⟩, ⟨2, "DRAFT"⟩] := by
  have hscen : createAssessment (createAssessment []) = [⟨1, "ARCHIVED"⟩, ⟨2, "DRAFT"⟩] := by
    rw [createAssessment_nil, createAssessment_stairsOn 0 "DRAFT" (by decide)]
    rfl
  rcases reachable_form h with rfl | ⟨n, s, hs, rfl⟩
  · exact ⟨by decide, by decide, ⟨[], by rfl, by simp, rfl⟩, hscen⟩
  · have hsa : s ≠ "ARCHIVED" := by rcases hs with rfl | rfl | rfl <;> decide
    refine ⟨?_, ?_, ?_, hscen⟩
    · rw [nonArchived_stairsOn n s hsa]
      simp
    · rw [createAssessment_stairsOn n s hsa,
        nonArchived_stairsOn (n + 1) "DRAFT" (by decide)]
      simp
    · refine ⟨archStairs (n + 1), ?_, fun a ha => (mem_archStairs ha).2, ?_⟩
      · rw [createAssessment_stairsOn n s hsa]
        show stairsOn (n + 1) "DRAFT" = _
        rw [stairsOn, nextVersion, latestAssessment_stairsOn]
      · rw [archStairs_length, stairsOn, List.length_append, archStairs_length]
        rfl

/-- Witness for C4 at a reachable state whose latest assessment is
FINALIZED (one creation followed by one finalize), exercising the
whatever-its-status case: creating again archives the FINALIZED row. -/
theorem assessment_archival_C4_witness :
    ReachableAssessments [⟨1, "FINALIZED"⟩]
      ∧ ((([⟨1, "FINALIZED"⟩] : List AssessRow).filter
            (fun a => a.status != "ARCHIVED")).length ≤ 1
          ∧ (((createAssessment [⟨1, "FINALIZED"⟩]).filter
                (fun a => a.status != "ARCHIVED")).length ≤ 1)
          ∧ (∃ pre, createAssessment [⟨1, "FINALIZED"⟩]
                = pre ++ [⟨nextVersion [⟨1, "FINALIZED"⟩], "DRAFT"⟩]
              ∧ (∀ a ∈ pre, a.status = "ARCHIVED")
              ∧ pre.length = ([⟨1, "FINALIZED"⟩] : List AssessRow).length)
          ∧ createAssessment (createAssessment []) = [⟨1, "ARCHIVED"⟩, ⟨2, "DRAFT"⟩]) :=
  have hreach : ReachableAssessments [⟨1, "FINALIZED"⟩] :=
    ReachableAssessments.finalize 1 (createAssessment []) [⟨1, "FINALIZED"⟩]
      (ReachableAssessments.create [] ReachableAssessments.init) (by decide)
  ⟨hreach, assessment_archival_C4 [⟨1, "FINALIZED"⟩] hreach⟩

end ComplianceHealth
